import Mathlib

/-!
Verification of the bpfcov CLI (src/cli/cli.c) against its natural-language
specification.  The relevant C functions are shallowly embedded as executable
Lean definitions: register snapshots become a structure of natural numbers
(u64 values), the libbpf / kernel calls become explicit oracle inputs, and the
bytes written with fwrite become lists of naturals (one per byte, little
endian, exactly in the order the C code emits them).
-/

namespace Bpfcov

/-- Little-endian byte serialization of a value over `w` bytes, as fwrite
emits an integer object of width `w` on x86-64. -/
def le_bytes (w v : Nat) : List Nat :=
  (List.range w).map (fun i => v / 2 ^ (8 * i) % 256)

/-- 8-byte little-endian serialization (C `long long int`). -/
def le64 (v : Nat) : List Nat := le_bytes 8 v

/-- 4-byte little-endian serialization (C `__u32`). -/
def le32 (v : Nat) : List Nat := le_bytes 4 v

/-- Decode the unsigned 4-byte little-endian integer found at byte offset
`off` of a buffer, as `memcpy(&version, &buf[off], 4)` reads it on a
little-endian host (out-of-range bytes default to 0). -/
def u32le_at (bs : List Nat) (off : Nat) : Nat :=
  bs.getD off 0 + 256 * bs.getD (off + 1) 0
    + 65536 * bs.getD (off + 2) 0 + 16777216 * bs.getD (off + 3) 0

theorem le_bytes_length (w v : Nat) : (le_bytes w v).length = w := by
  simp [le_bytes]

/-- The fields of `struct bpf_map_info` that cli.c consults.  In the kernel
UAPI struct the `__u32 value_size` field is immediately followed by the
`__u32 max_entries` field, with no padding in between; `gen` relies on this
adjacency (see `gen` below). -/
structure BpfMapInfo where
  key_size : Nat
  value_size : Nat
  max_entries : Nat
  name : String
deriving DecidableEq

/-- Read C-char `i` of a string viewed as a NUL-terminated C string: past the
end of the stored characters every position reads as the terminating NUL
(value 0). -/
def cstr_at (s : List Char) (i : Nat) : Nat :=
  match s[i]? with
  | some c => c.toNat
  | none => 0

/-- `strncmp(a, b, n) == 0`: the first `n` C-chars agree, stopping early at a
common NUL terminator. -/
def strncmp0 : List Char → List Char → Nat → Bool
  | _, _, 0 => true
  | a, b, Nat.succ n =>
    if cstr_at a 0 ≠ cstr_at b 0 then false
    else if cstr_at a 0 = 0 then true
    else strncmp0 a.tail b.tail n

/-- `get_pin_path` (cli.c:698-722) restricted to a non-NULL `suffix`
argument: four prefix tests via `strncmp`, returning the index into
`args->pin` selected (the C function stores `args->pin[i]` through the out
parameter and returns 1; returning `none` models its 0 / no-match result). -/
def get_pin_path (suffix : List Char) : Option (Fin 4) :=
  if strncmp0 suffix "profc".data 5 then some 0
  else if strncmp0 suffix "profd".data 5 then some 1
  else if strncmp0 suffix "profn".data 5 then some 2
  else if strncmp0 suffix "covmap".data 6 then some 3
  else none

/-- The token list of a C string under repeated `strtok(·, ".")`: maximal
runs of non-separator characters, with runs of separators collapsed (the
accumulator carries the current token reversed). -/
def ctokens : List Char → List Char → List (List Char)
  | [], acc => if acc.isEmpty then [] else [acc.reverse]
  | c :: cs, acc =>
    if c = '.' then
      if acc.isEmpty then ctokens cs [] else acc.reverse :: ctokens cs []
    else ctokens cs (c :: acc)

/-- The suffix `run` extracts from a map name (cli.c:885-887):
`strtok(name, "."); suffix = strtok(NULL, ".")` — the second `.`-separated
token, or NULL (`none`) when the name has at most one token. -/
def map_name_suffix (name : List Char) : Option (List Char) :=
  (ctokens name [])[1]?

/-- Outcome of resolving a (possibly NULL) suffix through `get_pin_path`. -/
inductive NameRes
  | crash
  | noRole
  | role (i : Fin 4)
deriving DecidableEq

/-- Resolution of the strtok result: a NULL suffix is passed straight into
`strncmp(suffix, "profc", 5)` inside `get_pin_path`, which dereferences the
null pointer — undefined behavior, modeled as `crash`. -/
def resolve_suffix (suffix : Option (List Char)) : NameRes :=
  match suffix with
  | none => NameRes.crash
  | some s =>
    match get_pin_path s with
    | none => NameRes.noRole
    | some i => NameRes.role i

/-- Full map-name to role resolution as `run` performs it. -/
def resolve_map_name (name : List Char) : NameRes :=
  resolve_suffix (map_name_suffix name)

/-- The fixed path leaf appended to the program pin root for each of the four
pin slots (root_parse, cli.c:300-334: `snprintf("%s/%s", prog_root, tok)`). -/
def pin_leaf : Fin 4 → List Char
  | 0 => '/' :: "profc".data
  | 1 => '/' :: "profd".data
  | 2 => '/' :: "profn".data
  | 3 => '/' :: "covmap".data

/-- `args->pin[i]`: the program pin root followed by the slot's leaf. -/
def pin_slot (prog_root : List Char) (i : Fin 4) : List Char :=
  prog_root ++ pin_leaf i

-- ------------------------------------------------------------------
-- Syscall tracer (run, cli.c:777-904)
-- ------------------------------------------------------------------

/-- The registers cli.c reads from a `user_regs_struct` snapshot (u64
values). -/
structure Regs where
  orig_rax : Nat
  rax : Nat
  rdi : Nat
deriving DecidableEq

/-- `SYS_bpf` on x86-64. -/
def SYS_bpf : Nat := 321

/-- `BPF_MAP_CREATE`, the first value of `enum bpf_cmd`. -/
def BPF_MAP_CREATE : Nat := 0

/-- The recognition test at cli.c:820-825: `sysc` and `comm` are the
registers truncated to `unsigned int`, compared against `SYS_bpf` and
`BPF_MAP_CREATE`. -/
def is_map_event (r : Regs) : Bool :=
  (r.orig_rax % 4294967296 == SYS_bpf) && (r.rdi % 4294967296 == BPF_MAP_CREATE)

/-- One iteration's effect on the `is_map` variable: line 824 sets it to 1
when the event matches; no statement in the loop ever clears it. -/
def is_map_step (m : Nat) (r : Regs) : Nat :=
  if is_map_event r then 1 else m

/-- The value of `is_map` after the loop has observed the given syscall-entry
snapshots, starting from its initialization `int is_map = 0` (cli.c:799). -/
def is_map_after (evs : List Regs) : Nat :=
  evs.foldl is_map_step 0

/-- Result of the post-syscall `PTRACE_GETREGS` probe (cli.c:844). -/
inductive ExitProbe
  | ok (r : Regs)
  | esrch
  | othererr
deriving DecidableEq

/-- Control outcome of one tracer loop iteration. -/
inductive ProbeOutcome
  | cont (r : Regs)
  | exited (status : Nat)
  | fatal
deriving DecidableEq

/-- The trace-control calls of one loop iteration (cli.c:803-852), as
oracle inputs: resume/wait on syscall entry, the entry register probe, the
resume/wait on syscall exit, and the exit register probe. -/
structure IterCtl where
  resume_enter_ok : Bool
  wait_enter_ok : Bool
  getregs_enter : Option Regs
  resume_exit_ok : Bool
  wait_exit_ok : Bool
  getregs_exit : ExitProbe
deriving DecidableEq

/-- Control flow of one tracer loop iteration, cli.c:803-856.  Every
trace-control failure is `log_fata` (fatal) except the exit-probe failing
with `ESRCH`: there the code calls `exit(regs.rdi)`, where `regs` still holds
the entry snapshot, so the tracer terminates normally with status
`entry.rdi` (the first syscall-argument register: the status the target
passed to its exit syscall). -/
def trace_iter (c : IterCtl) : ProbeOutcome :=
  if !c.resume_enter_ok then ProbeOutcome.fatal
  else if !c.wait_enter_ok then ProbeOutcome.fatal
  else
    match c.getregs_enter with
    | none => ProbeOutcome.fatal
    | some entry =>
      if !c.resume_exit_ok then ProbeOutcome.fatal
      else if !c.wait_exit_ok then ProbeOutcome.fatal
      else
        match c.getregs_exit with
        | ExitProbe.ok r => ProbeOutcome.cont r
        | ExitProbe.esrch => ProbeOutcome.exited entry.rdi
        | ExitProbe.othererr => ProbeOutcome.fatal

-- ------------------------------------------------------------------
-- Map pinning inside the tracer loop (cli.c:858-900)
-- ------------------------------------------------------------------

/-- Oracle inputs for the pinning block: outcome of `pidfd_open`,
`pidfd_getfd`, `bpf_obj_get_info_by_fd` (`some name` on success, carrying
the kernel-reported map name), and `bpf_obj_pin`. -/
structure PinOracle where
  pidfd_open_ok : Bool
  pidfd_getfd_ok : Bool
  map_info : Option (List Char)
  pin_ok : Bool
deriving DecidableEq

/-- Outcome of the pinning block for one iteration. -/
inductive PinOutcome
  | skipped
  | pinned (i : Fin 4)
  | fatal
  | crash
deriving DecidableEq

/-- The body of `if (is_map && result) { ... }` (cli.c:859-900): failures of
`pidfd_open` / `pidfd_getfd` `continue` silently; a failed or anonymous
`bpf_obj_get_info_by_fd` skips the block; a recognized suffix is pinned and a
pin failure is `log_fata`; an unrecognized (non-NULL) suffix leaves `err`
at 0 and the map is ignored; a NULL suffix crashes in `get_pin_path`. -/
def pin_phase (o : PinOracle) : PinOutcome :=
  if !o.pidfd_open_ok then PinOutcome.skipped
  else if !o.pidfd_getfd_ok then PinOutcome.skipped
  else
    match o.map_info with
    | none => PinOutcome.skipped
    | some name =>
      if name.isEmpty then PinOutcome.skipped
      else
        match resolve_map_name name with
        | NameRes.crash => PinOutcome.crash
        | NameRes.noRole => PinOutcome.skipped
        | NameRes.role i => if o.pin_ok then PinOutcome.pinned i else PinOutcome.fatal

/-- The guard and body at cli.c:859: the pinning block (fd exfiltration) is
entered iff `is_map && result`; the first component records whether the
exfiltration was attempted at all. -/
def run_pin_step (is_map rax : Nat) (o : PinOracle) : Bool × PinOutcome :=
  if is_map != 0 && rax != 0 then (true, pin_phase o) else (false, PinOutcome.skipped)

-- ------------------------------------------------------------------
-- get_global_data (cli.c:732-771)
-- ------------------------------------------------------------------

/-- Oracle inputs for `get_global_data`: whether both `malloc`s succeed, and
the results of `bpf_map_get_next_key` and `bpf_map_lookup_elem` (nonzero
`Int` error code on failure, payload bytes on success). -/
structure GgdOracle where
  alloc_ok : Bool
  next_key : Except Int (List Nat)
  lookup_elem : List Nat → Except Int (List Nat)

/-- Result of `get_global_data`: the returned `err`, the caller's `data`
buffer after the call, and whether the `error_out` epilogue released the two
temporary buffers and closed the map fd. -/
structure GgdResult where
  err : Int
  data : List Nat
  freed_k : Bool
  freed_v : Bool
  closed_fd : Bool
deriving DecidableEq

/-- `get_global_data` (cli.c:732-771).  All paths fall through the
`error_out` label, which frees `k` and `v` and closes `fd`.  The dead
`if (!info)` null test of the source (line 743, after `info` was already
dereferenced for the mallocs) has no counterpart here since `info` is a
value.  `memcpy(data, v, info->value_size)` overwrites the first
`value_size` bytes of the caller's buffer and runs only after both kernel
lookups succeeded. -/
def get_global_data (info : BpfMapInfo) (o : GgdOracle) (data0 : List Nat) : GgdResult :=
  if !o.alloc_ok then ⟨-1, data0, true, true, true⟩
  else if info.max_entries > 1 then ⟨-1, data0, true, true, true⟩
  else
    match o.next_key with
    | Except.error e => ⟨e, data0, true, true, true⟩
    | Except.ok k =>
      match o.lookup_elem k with
      | Except.error e => ⟨e, data0, true, true, true⟩
      | Except.ok v => ⟨0, v.take info.value_size ++ data0.drop info.value_size, true, true, true⟩

-- ------------------------------------------------------------------
-- gen (cli.c:906-1050)
-- ------------------------------------------------------------------

/-- The profraw magic constant (cli.c:942). -/
def magic : List Nat := [0x81, 0x72, 0x66, 0x6F, 0x72, 0x70, 0x6C, 0xFF]

/-- The `log_fata` exits of `gen`, with the index into `args->pin` that the
failing call was about. -/
inductive GenFatal
  | mapInfoFail (i : Fin 4)
  | outOpenFail
  | globalDataFail (i : Fin 4)
deriving DecidableEq

/-- Environment of one `gen` invocation: the metadata of the four pinned
maps, success of the four `get_map_info(bpf_obj_get(...))` calls and of
`fopen(args->output, "wb")`, and the `get_global_data` oracles for the three
value fetches `gen` performs (covmap, profd, profc). -/
structure GenEnv where
  profc_info : BpfMapInfo
  profd_info : BpfMapInfo
  profn_info : BpfMapInfo
  covmap_info : BpfMapInfo
  profc_open_ok : Bool
  profd_open_ok : Bool
  profn_open_ok : Bool
  covmap_open_ok : Bool
  out_open_ok : Bool
  covmap_oracle : GgdOracle
  profd_oracle : GgdOracle
  profc_oracle : GgdOracle

/-- `gen` (cli.c:906-1050), modeled as the byte stream written to the output
file: on success `Except.ok` carries the whole file, on a `log_fata` exit
`Except.error` carries the reason and the bytes already written.
Field by field, in source order:
magic (line 943); version = the u32 at offset 12 of the covmap value plus 1,
written as 8 bytes (lines 950-953); `func_num = profd value_size / 48`;
an 8-byte zero pad; `counters_num = profc value_size / 8`; an 8-byte zero
pad; then `fwrite(&profn_info.value_size, 1, sizeof(value_size) * 2, ...)`
(line 968) which emits 8 bytes starting at the `value_size` field — i.e. the
4-byte `value_size` followed by the adjacent 4-byte `max_entries` field of
`struct bpf_map_info`; two 8-byte zero deltas; the 8-byte constant 1; the
profd value verbatim; the profc value verbatim.  No names payload is
written.  The malloc'd fetch buffers are modeled zero-filled; on every path
that uses them they are fully overwritten by `get_global_data`. -/
def gen (e : GenEnv) : Except (GenFatal × List Nat) (List Nat) :=
  if !e.profc_open_ok then Except.error (GenFatal.mapInfoFail 0, [])
  else if !e.profd_open_ok then Except.error (GenFatal.mapInfoFail 1, [])
  else if !e.profn_open_ok then Except.error (GenFatal.mapInfoFail 2, [])
  else if !e.covmap_open_ok then Except.error (GenFatal.mapInfoFail 3, [])
  else if !e.out_open_ok then Except.error (GenFatal.outOpenFail, [])
  else
    let covres := get_global_data e.covmap_info e.covmap_oracle
      (List.replicate e.covmap_info.value_size 0)
    if covres.err ≠ 0 then Except.error (GenFatal.globalDataFail 3, magic)
    else
      let hdr := magic
        ++ le64 (u32le_at covres.data 12 + 1)
        ++ le64 (e.profd_info.value_size / 48)
        ++ le64 0
        ++ le64 (e.profc_info.value_size / 8)
        ++ le64 0
        ++ le32 e.profn_info.value_size
        ++ le32 e.profn_info.max_entries
        ++ le64 0
        ++ le64 0
        ++ le64 1
      let dres := get_global_data e.profd_info e.profd_oracle
        (List.replicate e.profd_info.value_size 0)
      if dres.err ≠ 0 then Except.error (GenFatal.globalDataFail 1, hdr)
      else
        let cres := get_global_data e.profc_info e.profc_oracle
          (List.replicate e.profc_info.value_size 0)
        if cres.err ≠ 0 then Except.error (GenFatal.globalDataFail 0, hdr ++ dres.data)
        else Except.ok (hdr ++ dres.data ++ cres.data)

-- ------------------------------------------------------------------
-- Pin reconciliation in root_parse (cli.c:336-360)
-- ------------------------------------------------------------------

/-- One slot of the pin-path loop at cli.c:338-360: `ex` is whether
`access(args->pin[p], F_OK) == 0`, `uok` whether `unlink` would succeed.
Under `run`, an existing pin is unlinked (failure is `argp_error`, modeled
`none`) and an absent pin is left alone; under `gen`, an absent pin is
`argp_error`.  On success the slot's new existence state is returned. -/
def check_pin_one (is_run is_gen ex uok : Bool) : Option Bool :=
  if ex then
    if is_run then (if uok then some false else none) else some ex
  else
    if is_gen then none else some ex

/-- The whole loop over the pin slots, threading existence flags `ex` and
unlink outcomes `u` slotwise; `none` models `argp_error` terminating the
tool at the first failing slot. -/
def reconcile_pins (is_run is_gen : Bool) : List Bool → List Bool → Option (List Bool)
  | [], _ => some []
  | e :: es, u =>
    match check_pin_one is_run is_gen e (u.headD true) with
    | none => none
    | some e2 =>
      match reconcile_pins is_run is_gen es u.tail with
      | none => none
      | some rest => some (e2 :: rest)

-- ------------------------------------------------------------------
-- Concrete instances used by witnesses and counterexamples
-- ------------------------------------------------------------------

/-- A covmap sole value whose bytes 12-15 decode to 3. -/
def cvX : List Nat := List.replicate 12 0 ++ [3, 0, 0, 0]

/-- A profd (data map) sole value of 48 bytes. -/
def dvX : List Nat := List.replicate 48 7

/-- A profc (counters map) sole value of 8 bytes. -/
def ctvX : List Nat := List.replicate 8 9

def infoC : BpfMapInfo := ⟨8, 8, 1, "x.profc"⟩

def infoD : BpfMapInfo := ⟨8, 48, 1, "x.profd"⟩

def infoN : BpfMapInfo := ⟨8, 5, 1, "x.profn"⟩

def infoM : BpfMapInfo := ⟨8, 16, 1, "x.covmap"⟩

/-- A covmap metadata record declaring more than one entry. -/
def infoM2 : BpfMapInfo := ⟨8, 16, 2, "x.covmap"⟩

/-- An oracle whose kernel lookups succeed and yield `v`. -/
def oraX (v : List Nat) : GgdOracle := ⟨true, Except.ok [0], fun _ => Except.ok v⟩

/-- A fully healthy `gen` environment over the four maps above. -/
def cenvX : GenEnv :=
  ⟨infoC, infoD, infoN, infoM, true, true, true, true, true, oraX cvX, oraX dvX, oraX ctvX⟩

/-- Same environment, except the covmap declares 2 entries. -/
def cenv7 : GenEnv :=
  ⟨infoC, infoD, infoN, infoM2, true, true, true, true, true, oraX cvX, oraX dvX, oraX ctvX⟩

/-- The byte stream `gen` produces on `cenvX`. -/
def outX : List Nat :=
  magic ++ le64 4 ++ le64 1 ++ le64 0 ++ le64 1 ++ le64 0
    ++ le32 5 ++ le32 1 ++ le64 0 ++ le64 0 ++ le64 1 ++ dvX ++ ctvX

/-- Entry-register snapshot of an `exit_group(3)` syscall: `rax` holds the
kernel's entry-stop value, `rdi` the status argument. -/
def crX : Regs := ⟨231, 7, 3⟩

def ctlX : IterCtl := ⟨true, true, some crX, true, true, ExitProbe.esrch⟩

-- ------------------------------------------------------------------
-- Helper lemmas
-- ------------------------------------------------------------------

/-- Success contract of the `get_global_data` oracles: both mallocs succeed,
the map declares at most one entry, the kernel hands back a first key and a
value of exactly `value_size` bytes for it. -/
def yields (o : GgdOracle) (info : BpfMapInfo) (v : List Nat) : Prop :=
  o.alloc_ok = true ∧ info.max_entries ≤ 1
    ∧ (∃ k, o.next_key = Except.ok k ∧ o.lookup_elem k = Except.ok v)
    ∧ v.length = info.value_size

theorem ggd_yields {o : GgdOracle} {info : BpfMapInfo} {v : List Nat}
    (h : yields o info v) :
    get_global_data info o (List.replicate info.value_size 0)
      = ⟨0, v, true, true, true⟩ := by
  obtain ⟨ha, hm, ⟨k, hk, hv⟩, hlen⟩ := h
  have hgt : ¬ info.max_entries > 1 := by omega
  unfold get_global_data
  rw [ha, hk]
  simp [hgt, hv, ← hlen]

theorem le64_length (v : Nat) : (le64 v).length = 8 := le_bytes_length 8 v

theorem gen_ok_eq (e : GenEnv) (cv dv ctv : List Nat)
    (h0 : e.profc_open_ok = true) (h1 : e.profd_open_ok = true)
    (h2 : e.profn_open_ok = true) (h3 : e.covmap_open_ok = true)
    (h4 : e.out_open_ok = true)
    (hc : yields e.covmap_oracle e.covmap_info cv)
    (hd : yields e.profd_oracle e.profd_info dv)
    (hp : yields e.profc_oracle e.profc_info ctv) :
    gen e = Except.ok (magic
      ++ le64 (u32le_at cv 12 + 1)
      ++ le64 (e.profd_info.value_size / 48)
      ++ le64 0
      ++ le64 (e.profc_info.value_size / 8)
      ++ le64 0
      ++ le32 e.profn_info.value_size
      ++ le32 e.profn_info.max_entries
      ++ le64 0 ++ le64 0 ++ le64 1
      ++ dv ++ ctv) := by
  unfold gen
  rw [h0, h1, h2, h3, h4, ggd_yields hc, ggd_yields hd, ggd_yields hp]
  simp

/-- Dropping the 8-byte magic and taking 8 bytes lands exactly on the next
8-byte field. -/
theorem slice_after_magic (v : Nat) (rest : List Nat) :
    ((magic ++ (le64 v ++ rest)).drop 8).take 8 = le64 v := by
  rw [List.drop_left' (by decide : (magic : List Nat).length = 8)]
  rw [List.take_left' (le64_length v)]

theorem is_map_foldl (m : Nat) (evs : List Regs) :
    evs.foldl is_map_step m = if evs.any is_map_event then 1 else m := by
  induction evs generalizing m with
  | nil => simp
  | cons e es ih =>
    simp only [List.foldl_cons, List.any_cons, ih]
    by_cases h : is_map_event e <;> simp [is_map_step, h]

-- ------------------------------------------------------------------
-- Claims
-- ------------------------------------------------------------------

/-- Claim C1, counterexample to the claim as stated: on a concrete healthy
environment whose names map has value size 5 and max-entries 1, the 8 bytes
at offset 48 of the emitted file (the "names-size" field) are the 4-byte
value size followed by the 4-byte max-entries count, not the value size
written twice. -/
theorem C1_counterexample :
    gen cenvX = Except.ok outX
      ∧ (outX.drop 48).take 8 ≠ le32 5 ++ le32 5 := by
  constructor
  · rfl
  · decide

/-- Claim C1, amended: for every gen invocation over four opened pinned maps
whose value fetches succeed, the output is, in strict append order: the
8-byte magic 81 72 66 6F 72 70 6C FF; the 8-byte version; the 8-byte
function-record count (data-map value size / 48); 8 zero bytes; the 8-byte
counter count (counters-map value size / 8); 8 zero bytes; the names-map
value size as 4 bytes followed by the adjacent 4-byte max-entries field of
the names map's info record (the source writes 8 bytes starting at the
4-byte value_size field, so the second half is NOT a second copy of the
size); an 8-byte zero counters-delta; an 8-byte zero names-delta; the
8-byte tag 1; the data map's sole value verbatim; the counters map's sole
value verbatim; and no names payload. -/
theorem C1_gen_layout (e : GenEnv) (cv dv ctv : List Nat)
    (h0 : e.profc_open_ok = true) (h1 : e.profd_open_ok = true)
    (h2 : e.profn_open_ok = true) (h3 : e.covmap_open_ok = true)
    (h4 : e.out_open_ok = true)
    (hc : yields e.covmap_oracle e.covmap_info cv)
    (hd : yields e.profd_oracle e.profd_info dv)
    (hp : yields e.profc_oracle e.profc_info ctv) :
    gen e = Except.ok (magic
      ++ le64 (u32le_at cv 12 + 1)
      ++ le64 (e.profd_info.value_size / 48)
      ++ le64 0
      ++ le64 (e.profc_info.value_size / 8)
      ++ le64 0
      ++ le32 e.profn_info.value_size
      ++ le32 e.profn_info.max_entries
      ++ le64 0 ++ le64 0 ++ le64 1
      ++ dv ++ ctv) :=
  gen_ok_eq e cv dv ctv h0 h1 h2 h3 h4 hc hd hp

/-- Witness for C1_gen_layout at the concrete environment `cenvX`. -/
theorem C1_witness :
    gen cenvX = Except.ok (magic
      ++ le64 (u32le_at cvX 12 + 1)
      ++ le64 (cenvX.profd_info.value_size / 48)
      ++ le64 0
      ++ le64 (cenvX.profc_info.value_size / 8)
      ++ le64 0
      ++ le32 cenvX.profn_info.value_size
      ++ le32 cenvX.profn_info.max_entries
      ++ le64 0 ++ le64 0 ++ le64 1
      ++ dvX ++ ctvX) :=
  C1_gen_layout cenvX cvX dvX ctvX rfl rfl rfl rfl rfl
    ⟨rfl, by decide, ⟨[0], rfl, rfl⟩, by decide⟩
    ⟨rfl, by decide, ⟨[0], rfl, rfl⟩, by decide⟩
    ⟨rfl, by decide, ⟨[0], rfl, rfl⟩, by decide⟩

/-- Claim C2 (confirmed): whenever the coverage-header map yields a sole
value of at least 16 bytes, the emitted 8-byte version field (bytes 8-15 of
the output) equals the unsigned 4-byte little-endian integer at bytes 12-15
of that value, plus one; in particular a stored 3 is emitted as 4. -/
theorem C2_version (e : GenEnv) (cv dv ctv : List Nat)
    (h0 : e.profc_open_ok = true) (h1 : e.profd_open_ok = true)
    (h2 : e.profn_open_ok = true) (h3 : e.covmap_open_ok = true)
    (h4 : e.out_open_ok = true)
    (hc : yields e.covmap_oracle e.covmap_info cv)
    (hd : yields e.profd_oracle e.profd_info dv)
    (hp : yields e.profc_oracle e.profc_info ctv)
    (h16 : 16 ≤ cv.length) :
    ∃ out, gen e = Except.ok out
      ∧ (out.drop 8).take 8 = le64 (u32le_at cv 12 + 1)
      ∧ (u32le_at cv 12 = 3 → (out.drop 8).take 8 = le64 4) := by
  refine ⟨_, gen_ok_eq e cv dv ctv h0 h1 h2 h3 h4 hc hd hp, ?_⟩
  have hs : (((magic
      ++ le64 (u32le_at cv 12 + 1)
      ++ le64 (e.profd_info.value_size / 48)
      ++ le64 0
      ++ le64 (e.profc_info.value_size / 8)
      ++ le64 0
      ++ le32 e.profn_info.value_size
      ++ le32 e.profn_info.max_entries
      ++ le64 0 ++ le64 0 ++ le64 1
      ++ dv ++ ctv).drop 8).take 8) = le64 (u32le_at cv 12 + 1) := by
    simp only [List.append_assoc]
    exact slice_after_magic _ _
  refine ⟨hs, fun h3v => ?_⟩
  rw [h3v] at hs ⊢
  simpa using hs

/-- Witness for C2_version at the concrete environment `cenvX`. -/
theorem C2_witness :
    ∃ out, gen cenvX = Except.ok out
      ∧ (out.drop 8).take 8 = le64 (u32le_at cvX 12 + 1)
      ∧ (u32le_at cvX 12 = 3 → (out.drop 8).take 8 = le64 4) :=
  C2_version cenvX cvX dvX ctvX rfl rfl rfl rfl rfl
    ⟨rfl, by decide, ⟨[0], rfl, rfl⟩, by decide⟩
    ⟨rfl, by decide, ⟨[0], rfl, rfl⟩, by decide⟩
    ⟨rfl, by decide, ⟨[0], rfl, rfl⟩, by decide⟩
    (by decide)

/-- Claim C3, counterexample to the claim as stated: after a matching
map-create event followed by a non-matching event, `is_map` still holds in
the second iteration even though that iteration's event does not match —
the flag does not reset every iteration. -/
theorem C3_counterexample :
    is_map_after [⟨321, 0, 0⟩, ⟨1, 0, 5⟩] = 1
      ∧ is_map_event ⟨1, 0, 5⟩ = false := by decide

/-- Claim C3, amended: `is_map` is set when the observed syscall number
(truncated to 32 bits) equals SYS_bpf and its first argument equals
BPF_MAP_CREATE, and it is never reset inside the loop: after any event
sequence it is 1 exactly when some event in the sequence matched, and 0
otherwise — it is sticky, not per-iteration. -/
theorem C3_is_map_sticky (evs : List Regs) :
    is_map_after evs = if evs.any is_map_event then 1 else 0 :=
  is_map_foldl 0 evs

/-- Claim C4, counterexample to the claim as stated: with the last captured
entry registers holding return register rax = 7 and first-argument register
rdi = 3, the ESRCH exit path terminates with status 3 (the rdi value), not
with the return-register value 7. -/
theorem C4_counterexample :
    trace_iter ctlX = ProbeOutcome.exited 3
      ∧ trace_iter ctlX ≠ ProbeOutcome.exited crX.rax := by decide

/-- Claim C4, amended: when the post-syscall register probe fails because
the traced process has already exited (ESRCH), the tracer terminates
normally with exit status taken from the first-argument register (rdi) of
the last captured register snapshot — the status the target passed to its
exit syscall — not from the return register; any other register-probe,
resume, or wait failure in the loop is fatal. -/
theorem C4_exit_paths (entry r : Regs) (w1 r2 w2 : Bool) (g : Option Regs) (p : ExitProbe) :
    trace_iter ⟨true, true, some entry, true, true, ExitProbe.esrch⟩
        = ProbeOutcome.exited entry.rdi
      ∧ trace_iter ⟨true, true, some entry, true, true, ExitProbe.othererr⟩
        = ProbeOutcome.fatal
      ∧ trace_iter ⟨true, true, some entry, true, true, ExitProbe.ok r⟩
        = ProbeOutcome.cont r
      ∧ trace_iter ⟨false, w1, g, r2, w2, p⟩ = ProbeOutcome.fatal
      ∧ trace_iter ⟨true, false, g, r2, w2, p⟩ = ProbeOutcome.fatal
      ∧ trace_iter ⟨true, true, none, r2, w2, p⟩ = ProbeOutcome.fatal
      ∧ trace_iter ⟨true, true, some entry, false, w2, p⟩ = ProbeOutcome.fatal
      ∧ trace_iter ⟨true, true, some entry, true, false, p⟩ = ProbeOutcome.fatal := by
  refine ⟨rfl, rfl, rfl, rfl, rfl, rfl, rfl, rfl⟩

/-- Claim C5 (confirmed): fd exfiltration is attempted exactly when `is_map`
holds and the syscall result is non-zero; a failure of `pidfd_open` or
`pidfd_getfd` is silently skipped (tracing continues); and once a map name's
suffix resolves to a role, a failure of `bpf_obj_pin` is fatal. -/
theorem C5_exfiltration :
    (∀ (m rax : Nat) (o : PinOracle),
        ((run_pin_step m rax o).1 = true ↔ (m ≠ 0 ∧ rax ≠ 0)))
      ∧ (∀ (g p : Bool) (i : Option (List Char)),
          pin_phase ⟨false, g, i, p⟩ = PinOutcome.skipped)
      ∧ (∀ (p : Bool) (i : Option (List Char)),
          pin_phase ⟨true, false, i, p⟩ = PinOutcome.skipped)
      ∧ (∀ (name : List Char) (i : Fin 4),
          resolve_map_name name = NameRes.role i →
            pin_phase ⟨true, true, some name, false⟩ = PinOutcome.fatal)
      ∧ (∀ (m rax : Nat) (o : PinOracle),
          (run_pin_step m rax o).1 = false →
            (run_pin_step m rax o).2 = PinOutcome.skipped) := by
  refine ⟨?_, ?_, ?_, ?_, ?_⟩
  · intro m rax o
    by_cases hm : m = 0 <;> by_cases hr : rax = 0 <;> simp [run_pin_step, hm, hr]
  · intro g p i
    simp [pin_phase]
  · intro p i
    simp [pin_phase]
  · intro name i h
    have hne : ¬ name.isEmpty = true := by
      intro hemp
      rw [List.isEmpty_iff.mp hemp] at h
      simp [resolve_map_name, map_name_suffix, ctokens, resolve_suffix] at h
    simp [pin_phase, hne, h]
  · intro m rax o
    cases hcb : (m != 0 && rax != 0) <;> simp [run_pin_step, hcb]

/-- Witness for C5_exfiltration: the gate holds at is_map = 1, result = 3,
and a pin failure on a map named "x.profc" is fatal. -/
theorem C5_witness :
    (run_pin_step 1 3 ⟨true, true, none, true⟩).1 = true
      ∧ pin_phase ⟨true, true, some "x.profc".data, false⟩ = PinOutcome.fatal :=
  ⟨(C5_exfiltration.1 1 3 ⟨true, true, none, true⟩).mpr ⟨by decide, by decide⟩,
   C5_exfiltration.2.2.2.1 "x.profc".data 0 (by decide)⟩

/-- Claim C6, counterexample to the claim as stated: a map name with no
separator at all yields a NULL suffix, and resolution then dereferences the
null pointer inside get_pin_path (undefined behavior, modeled as `crash`) —
it does not yield "no role". -/
theorem C6_counterexample :
    resolve_map_name "somemap".data = NameRes.crash
      ∧ NameRes.crash ≠ NameRes.noRole := by decide

/-- Claim C6, amended: over the four suffix tokens profc, profd, profn,
covmap, suffix-to-role-to-path resolution is total and injective (the four
pin paths under one program root are pairwise distinct); every other
non-NULL suffix resolves to no role without crashing and the map is
silently ignored; but a map name carrying no separator at all produces a
NULL suffix whose resolution crashes rather than being ignored. -/
theorem C6_registry :
    (get_pin_path "profc".data = some 0 ∧ get_pin_path "profd".data = some 1
      ∧ get_pin_path "profn".data = some 2 ∧ get_pin_path "covmap".data = some 3)
      ∧ (∀ (r : List Char) (i j : Fin 4), pin_slot r i = pin_slot r j → i = j)
      ∧ (∀ s : List Char, resolve_suffix (some s) ≠ NameRes.crash)
      ∧ (∀ s : List Char, get_pin_path s = none →
          resolve_suffix (some s) = NameRes.noRole) := by
  refine ⟨by decide, ?_, ?_, ?_⟩
  · intro r i j h
    fin_cases i <;> fin_cases j <;>
      first
        | rfl
        | exact absurd (List.append_cancel_left h) (by decide)
  · intro s
    unfold resolve_suffix
    cases h : get_pin_path s <;> simp [h]
  · intro s h
    simp [resolve_suffix, h]

/-- Witness for C6_registry: injectivity applied at the empty program root
and slot 0, and an unrecognized suffix resolving to no role. -/
theorem C6_witness :
    (0 : Fin 4) = 0 ∧ resolve_suffix (some "xyz".data) = NameRes.noRole :=
  ⟨C6_registry.2.1 [] 0 0 rfl, C6_registry.2.2.2 "xyz".data (by decide)⟩

/-- Claim C7 (confirmed): when the coverage-header map declares more than
one entry, fetching its sole stored value fails (get_global_data returns a
non-zero error) and gen aborts with the corresponding diagnostic, having
written only the magic bytes — no version is emitted. -/
theorem C7_header_singleton (e : GenEnv)
    (h0 : e.profc_open_ok = true) (h1 : e.profd_open_ok = true)
    (h2 : e.profn_open_ok = true) (h3 : e.covmap_open_ok = true)
    (h4 : e.out_open_ok = true) (hm : e.covmap_info.max_entries > 1) :
    (get_global_data e.covmap_info e.covmap_oracle
        (List.replicate e.covmap_info.value_size 0)).err ≠ 0
      ∧ gen e = Except.error (GenFatal.globalDataFail 3, magic) := by
  have herr : (get_global_data e.covmap_info e.covmap_oracle
      (List.replicate e.covmap_info.value_size 0)).err = -1 := by
    unfold get_global_data
    cases ha : e.covmap_oracle.alloc_ok <;> simp [hm]
  constructor
  · rw [herr]; decide
  · unfold gen
    rw [h0, h1, h2, h3, h4]
    simp [herr]

/-- Witness for C7_header_singleton at the concrete environment `cenv7`. -/
theorem C7_witness :
    (get_global_data cenv7.covmap_info cenv7.covmap_oracle
        (List.replicate cenv7.covmap_info.value_size 0)).err ≠ 0
      ∧ gen cenv7 = Except.error (GenFatal.globalDataFail 3, magic) :=
  C7_header_singleton cenv7 rfl rfl rfl rfl rfl (by decide)

/-- Claim C8 (confirmed): before run, each existing pin is removed and
removal failure is fatal, while an absent pin is not an error (so the
reconciliation is idempotent); before gen, any absent pin is fatal. -/
theorem C8_reconcile (e0 e1 e2 e3 u0 u1 u2 u3 : Bool) :
    (reconcile_pins true false [e0, e1, e2, e3] [true, true, true, true]
        = some [false, false, false, false])
      ∧ ((reconcile_pins true false [e0, e1, e2, e3] [u0, u1, u2, u3] = none)
          ↔ ((e0 && !u0) || (e1 && !u1) || (e2 && !u2) || (e3 && !u3)) = true)
      ∧ (reconcile_pins true false [false, false, false, false] [u0, u1, u2, u3]
        = some [false, false, false, false])
      ∧ (reconcile_pins false true [e0, e1, e2, e3] [u0, u1, u2, u3]
        = if e0 && e1 && e2 && e3 then some [e0, e1, e2, e3] else none) := by
  revert e0 e1 e2 e3 u0 u1 u2 u3
  decide

/-- Claim C9 (confirmed): suffix recognition in get_pin_path matches by
token prefix, not exact equality — every suffix beginning with profc,
profd, profn, or covmap resolves to that token's slot and reports a match;
"profcounters" in particular resolves to the counters slot. -/
theorem C9_token_match (s : List Char) :
    get_pin_path ('p' :: 'r' :: 'o' :: 'f' :: 'c' :: s) = some 0
      ∧ get_pin_path ('p' :: 'r' :: 'o' :: 'f' :: 'd' :: s) = some 1
      ∧ get_pin_path ('p' :: 'r' :: 'o' :: 'f' :: 'n' :: s) = some 2
      ∧ get_pin_path ('c' :: 'o' :: 'v' :: 'm' :: 'a' :: 'p' :: s) = some 3
      ∧ get_pin_path "profcounters".data = some 0 := by
  refine ⟨?_, ?_, ?_, ?_, by decide⟩ <;> simp [get_pin_path, strncmp0, cstr_at]

/-- Claim C10 (confirmed): get_global_data frees both temporary buffers and
closes the map fd on every path, and whenever it returns a non-zero error
the caller's output buffer is left completely unmodified. -/
theorem C10_release (info : BpfMapInfo) (o : GgdOracle) (d0 : List Nat) :
    ((get_global_data info o d0).freed_k = true
        ∧ (get_global_data info o d0).freed_v = true
        ∧ (get_global_data info o d0).closed_fd = true)
      ∧ ((get_global_data info o d0).err ≠ 0 → (get_global_data info o d0).data = d0) := by
  rcases o with ⟨a, nk, lk⟩
  cases a
  · simp [get_global_data]
  · by_cases hm : info.max_entries > 1
    · simp [get_global_data, hm]
    · cases hk : nk with
      | error e => simp [get_global_data, hm, hk]
      | ok k =>
        cases hv : lk k with
        | error e2 => simp [get_global_data, hm, hk, hv]
        | ok v => simp [get_global_data, hm, hk, hv]

/-- Witness for C10_release at a map declaring 2 entries: the fetch fails
and the caller's buffer [9, 9] is untouched. -/
theorem C10_witness :
    (get_global_data infoM2 (oraX [1, 2, 3, 4]) [9, 9]).freed_k = true
      ∧ (get_global_data infoM2 (oraX [1, 2, 3, 4]) [9, 9]).data = [9, 9] :=
  ⟨(C10_release infoM2 (oraX [1, 2, 3, 4]) [9, 9]).1.1,
   (C10_release infoM2 (oraX [1, 2, 3, 4]) [9, 9]).2 (by decide)⟩

end Bpfcov
